import Mathlib

/-!
Shallow embedding of `src/topo.py` (akemery/infrastructure_reseaux):
a Mininet topology of two Linux routers (`r0`, `r1`) and four hosts
(`h1`..`h4`), plus the `run` action that starts the network, injects
static routes and one firewall rule, opens a CLI and stops the network.

The topology descriptor (node specs, link specs), the `LinuxRouter`
lifecycle hooks and the `run` step sequence are translated from the
source.  The failure behaviour of the descriptor operations
(`addNode` / `addLink`) lives in the external emulation engine, not in
this repository, and is modelled from the spec where noted.
-/

namespace InfraReseaux

/-- An IPv4 address as four octets. -/
structure IPv4 where
  a : Nat
  b : Nat
  c : Nat
  d : Nat
deriving DecidableEq, Repr

/-- The 32-bit numeric value of an IPv4 address. -/
def IPv4.toNat (ip : IPv4) : Nat :=
  ((ip.a * 256 + ip.b) * 256 + ip.c) * 256 + ip.d

/-- Dotted-quad rendering, e.g. `192.168.1.1`. -/
def IPv4.render (ip : IPv4) : String :=
  toString ip.a ++ "." ++ toString ip.b ++ "." ++ toString ip.c ++ "." ++ toString ip.d

/-- An address with a routing prefix length, e.g. `192.168.2.100/24`. -/
structure Cidr where
  addr : IPv4
  pfx : Nat
deriving DecidableEq, Repr

/-- CIDR rendering, e.g. `192.168.2.100/24`. -/
def Cidr.render (c : Cidr) : String :=
  c.addr.render ++ "/" ++ toString c.pfx

/-- The network number of a CIDR: the address with host bits dropped. -/
def Cidr.network (c : Cidr) : Nat :=
  c.addr.toNat / 2 ^ (32 - c.pfx)

/-- The subnet a CIDR belongs to: its network address with the same prefix. -/
def Cidr.subnet (c : Cidr) : Cidr :=
  let n := c.network * 2 ^ (32 - c.pfx)
  ⟨⟨n / 2 ^ 24 % 256, n / 2 ^ 16 % 256, n / 2 ^ 8 % 256, n % 256⟩, c.pfx⟩

/-- Two CIDRs lie in the same subnet: equal prefix length and network. -/
def Cidr.sameSubnet (c1 c2 : Cidr) : Bool :=
  c1.pfx == c2.pfx && c1.network == c2.network

/-- Split a character list on a separator character. -/
def splitOnChar (sep : Char) : List Char → List (List Char)
  | [] => [[]]
  | c :: cs =>
    let r := splitOnChar sep cs
    if c = sep then [] :: r
    else
      match r with
      | [] => [[c]]
      | g :: gs => (c :: g) :: gs

/-- Read a nonempty all-digit character list as a decimal number. -/
def readNat? (cs : List Char) : Option Nat :=
  if cs.isEmpty then none
  else
    cs.foldl
      (fun acc c =>
        match acc with
        | none => none
        | some n => if c.isDigit then some (n * 10 + (c.toNat - 48)) else none)
      (some 0)

/-- Parse a dotted quad from characters. -/
def parseIPv4Chars (cs : List Char) : Option IPv4 :=
  match splitOnChar '.' cs with
  | [x, y, z, w] =>
    match readNat? x, readNat? y, readNat? z, readNat? w with
    | some a, some b, some c, some d => some ⟨a, b, c, d⟩
    | _, _, _, _ => none
  | _ => none

/-- Parse a dotted quad, e.g. `192.168.2.1`. -/
def parseIPv4 (s : String) : Option IPv4 :=
  parseIPv4Chars s.toList

/-- Parse a CIDR literal, e.g. `192.168.2.100/24`. -/
def parseCidr (s : String) : Option Cidr :=
  match splitOnChar '/' s.toList with
  | [ip, p] =>
    match parseIPv4Chars ip, readNat? p with
    | some addr, some pfx => some ⟨addr, pfx⟩
    | _, _ => none
  | _ => none

/-- Parse a Mininet default-route directive, e.g. `via 192.168.2.1`. -/
def parseVia (s : String) : Option IPv4 :=
  match s.toList with
  | 'v' :: 'i' :: 'a' :: ' ' :: rest => parseIPv4Chars rest
  | _ => none

/-- Node kind: `router` for nodes added with `cls=LinuxRouter`, `host`
for nodes added with `addHost`. -/
inductive NodeKind
  | router
  | host
deriving DecidableEq, Repr

/-- A node specification: identifier, kind and configuration
(`ip=` CIDR string; for hosts also the `defaultRoute=` directive). -/
structure NodeSpec where
  name : String
  kind : NodeKind
  ip : String
  defaultRoute : Option String
deriving DecidableEq, Repr

/-- A link specification: the two endpoint node ids, and per endpoint an
optional explicit interface name (`intfName1` / `intfName2`) and an
optional `ip` entry of the per-endpoint parameter dictionary
(`params2={'ip': ...}` in the source; the inter-router link spells the
keys `param1` / `param2`). -/
structure LinkSpec where
  node1 : String
  node2 : String
  intfName1 : Option String
  ip1 : Option String
  intfName2 : Option String
  ip2 : Option String
deriving DecidableEq, Repr

/-- The topology graph: node specs and link specs in insertion order. -/
structure Topo where
  nodes : List NodeSpec
  links : List LinkSpec
deriving DecidableEq, Repr

/-- The empty topology a build starts from. -/
def Topo.empty : Topo := ⟨[], []⟩

/-- Whether a node id is present in the graph. -/
def Topo.hasNode (t : Topo) (n : String) : Bool :=
  t.nodes.any (fun m => m.name == n)

/-- Modelled from the spec: the `bind` operation (Mininet's
`Topo.addNode`, external to this repository) adds a NodeSpec and fails
if the id already exists. -/
def Topo.addNode (t : Topo) (n : NodeSpec) : Except String Topo :=
  if t.hasNode n.name then
    Except.error ("duplicate node id: " ++ n.name)
  else
    Except.ok { t with nodes := t.nodes ++ [n] }

/-- `addHost` is `addNode` with kind `host` (Mininet's `Topo.addHost`). -/
def Topo.addHost (t : Topo) (name ip : String) (defaultRoute : Option String) :
    Except String Topo :=
  t.addNode ⟨name, NodeKind.host, ip, defaultRoute⟩

/-- Modelled from the spec: the `connect` operation (Mininet's
`Topo.addLink`, external to this repository) adds a LinkSpec between
two existing nodes and fails if either node reference is unknown. -/
def Topo.addLink (t : Topo) (l : LinkSpec) : Except String Topo :=
  if t.hasNode l.node1 && t.hasNode l.node2 then
    Except.ok { t with links := t.links ++ [l] }
  else
    Except.error ("unknown node in link: " ++ l.node1 ++ " - " ++ l.node2)

/-- `NetworkTopo.build` from `src/topo.py`: two LinuxRouter nodes, four
hosts with default routes, the inter-router link and four host-router
links, with the source's literal configuration strings. -/
def NetworkTopo.build : Except String Topo := do
  let defaultr0IP := "192.168.1.1/24"
  let defaultr1IP := "192.168.1.2/24"
  let t := Topo.empty
  let t ← t.addNode ⟨"r0", NodeKind.router, defaultr0IP, none⟩
  let t ← t.addNode ⟨"r1", NodeKind.router, defaultr1IP, none⟩
  let t ← t.addHost "h1" "192.168.2.100/24" (some "via 192.168.2.1")
  let t ← t.addHost "h2" "192.168.3.100/24" (some "via 192.168.3.1")
  let t ← t.addHost "h3" "192.168.5.100/24" (some "via 192.168.5.1")
  let t ← t.addHost "h4" "192.168.4.100/24" (some "via 192.168.4.1")
  let t ← t.addLink ⟨"r0", "r1", some "r0-eth1", some defaultr0IP,
                     some "r1-eth1", some defaultr1IP⟩
  let t ← t.addLink ⟨"h1", "r0", none, none, some "r0-eth2", some "192.168.2.1/24"⟩
  let t ← t.addLink ⟨"h2", "r0", none, none, some "r0-eth3", some "192.168.3.1/24"⟩
  let t ← t.addLink ⟨"h3", "r1", none, none, some "r1-eth3", some "192.168.5.1/24"⟩
  let t ← t.addLink ⟨"h4", "r1", none, none, some "r1-eth2", some "192.168.4.1/24"⟩
  return t

/-- The topology `NetworkTopo.build` constructs (build succeeds on the
concrete literals; see `build_ok`). -/
def builtTopo : Topo :=
  match NetworkTopo.build with
  | Except.ok t => t
  | Except.error _ => Topo.empty

/-- The concrete build succeeds and yields `builtTopo`. -/
theorem build_ok : NetworkTopo.build = Except.ok builtTopo := rfl

/-! ### LinuxRouter lifecycle hooks

`LinuxRouter` overrides only `config` (start) and `terminate` (stop) of
the plain Mininet `Node`.  An emulated node's observable state is the
kernel forwarding flag, the two lifecycle flags set by the base class,
and the trace of shell commands run on it. -/

/-- Observable state of one emulated node. -/
structure NodeState where
  forwarding : Bool
  configured : Bool
  terminated : Bool
  cmds : List String
deriving DecidableEq, Repr

/-- The shell command `LinuxRouter.config` issues. -/
def fwdEnableCmd : String := "sysctl net.ipv4.ip_forward=1"

/-- The shell command `LinuxRouter.terminate` issues. -/
def fwdDisableCmd : String := "sysctl net.ipv4.ip_forward=0"

/-- `self.cmd(c)`: append the command to the node's trace; the two
forwarding sysctls flip the kernel forwarding flag, any other command
leaves node state unchanged. -/
def NodeState.runShell (s : NodeState) (c : String) : NodeState :=
  let s' : NodeState := { s with cmds := s.cmds ++ [c] }
  if c = fwdEnableCmd then { s' with forwarding := true }
  else if c = fwdDisableCmd then { s' with forwarding := false }
  else s'

/-- Base `Node.config`: configure the node (interfaces etc.); does not
touch the forwarding flag. -/
def Node.config (s : NodeState) : NodeState :=
  { s with configured := true }

/-- Base `Node.terminate`: tear the node down; does not touch the
forwarding flag. -/
def Node.terminate (s : NodeState) : NodeState :=
  { s with terminated := true }

/-- `LinuxRouter.config`: call `super().config(...)`, then
`self.cmd('sysctl net.ipv4.ip_forward=1')`. -/
def LinuxRouter.config (s : NodeState) : NodeState :=
  (Node.config s).runShell fwdEnableCmd

/-- `LinuxRouter.terminate`: `self.cmd('sysctl net.ipv4.ip_forward=0')`,
then `super().terminate()`. -/
def LinuxRouter.terminate (s : NodeState) : NodeState :=
  Node.terminate (s.runShell fwdDisableCmd)

/-- The start hook the engine invokes for a node of a given kind:
routers use the `LinuxRouter` override, hosts the plain `Node` one. -/
def startHook : NodeKind → NodeState → NodeState
  | NodeKind.router => LinuxRouter.config
  | NodeKind.host => Node.config

/-- The stop hook the engine invokes for a node of a given kind. -/
def stopHook : NodeKind → NodeState → NodeState
  | NodeKind.router => LinuxRouter.terminate
  | NodeKind.host => Node.terminate

/-! ### The `run` action

`run()` builds the topology, starts the network, runs five shell
commands against the routers, opens the CLI and stops the network.  Its
execution is a sequential trace of steps; a step's structured command
renders to the exact string the source passes to `cmd` (see
`runSteps_render`). -/

/-- A shell command `run` issues against a node. -/
inductive Cmd
  | routeAdd (dest : Cidr) (gw : IPv4) (dev : String)
  | iptablesAppend (chain : String) (proto : String) (dst : IPv4) (target : String)
deriving DecidableEq, Repr

/-- Render a command to the shell string the source uses. -/
def Cmd.render : Cmd → String
  | Cmd.routeAdd dest gw dev =>
    "ip route add " ++ dest.render ++ " via " ++ gw.render ++ " dev " ++ dev
  | Cmd.iptablesAppend chain proto dst target =>
    "iptables -A " ++ chain ++ " -p " ++ proto ++ " -d " ++ dst.render ++
      " -j " ++ target

/-- One step of the sequential `run` action. -/
inductive Step
  | buildTopology
  | netStart
  | nodeCmd (node : String) (c : Cmd)
  | cli
  | netStop
deriving DecidableEq, Repr

/-- The steps `run()` executes, in program order: `NetworkTopo()` (which
calls `build`), `Mininet(...)` followed by `net.start()`, the five
`net[...].cmd(...)` calls, `CLI(net)`, `net.stop()`. -/
def runSteps : List Step :=
  [ Step.buildTopology
  , Step.netStart
  , Step.nodeCmd "r0" (Cmd.routeAdd ⟨⟨192, 168, 4, 0⟩, 24⟩ ⟨192, 168, 1, 2⟩ "r0-eth1")
  , Step.nodeCmd "r0" (Cmd.routeAdd ⟨⟨192, 168, 5, 0⟩, 24⟩ ⟨192, 168, 1, 2⟩ "r0-eth1")
  , Step.nodeCmd "r1" (Cmd.routeAdd ⟨⟨192, 168, 2, 0⟩, 24⟩ ⟨192, 168, 1, 1⟩ "r1-eth1")
  , Step.nodeCmd "r1" (Cmd.routeAdd ⟨⟨192, 168, 3, 0⟩, 24⟩ ⟨192, 168, 1, 1⟩ "r1-eth1")
  , Step.nodeCmd "r1" (Cmd.iptablesAppend "FORWARD" "icmp" ⟨192, 168, 4, 100⟩ "DROP")
  , Step.cli
  , Step.netStop ]

/-- The structured commands of `runSteps` render to the source's literal
command strings, in order. -/
theorem runSteps_render :
    runSteps.filterMap
        (fun s =>
          match s with
          | Step.nodeCmd n c => some (n, c.render)
          | _ => none) =
      [ ("r0", "ip route add 192.168.4.0/24 via 192.168.1.2 dev r0-eth1")
      , ("r0", "ip route add 192.168.5.0/24 via 192.168.1.2 dev r0-eth1")
      , ("r1", "ip route add 192.168.2.0/24 via 192.168.1.1 dev r1-eth1")
      , ("r1", "ip route add 192.168.3.0/24 via 192.168.1.1 dev r1-eth1")
      , ("r1", "iptables -A FORWARD -p icmp -d 192.168.4.100 -j DROP") ] := by
  decide

/-! ### Derived views used by the verified properties -/

/-- The IP configured on the first endpoint of a link: the per-endpoint
`ip` parameter when given, otherwise the endpoint node's own `ip`. -/
def endpointIp1 (t : Topo) (l : LinkSpec) : Option String :=
  match l.ip1 with
  | some ip => some ip
  | none => (t.nodes.find? (fun n => n.name == l.node1)).map (fun n => n.ip)

/-- The IP configured on the second endpoint of a link. -/
def endpointIp2 (t : Topo) (l : LinkSpec) : Option String :=
  match l.ip2 with
  | some ip => some ip
  | none => (t.nodes.find? (fun n => n.name == l.node2)).map (fun n => n.ip)

/-- Both endpoint IPs of a link parse as CIDRs with prefix length 24 in
the same subnet. -/
def linkSameSlash24 (t : Topo) (l : LinkSpec) : Bool :=
  match endpointIp1 t l, endpointIp2 t l with
  | some s1, some s2 =>
    match parseCidr s1, parseCidr s2 with
    | some c1, some c2 => c1.pfx == 24 && Cidr.sameSubnet c1 c2
    | _, _ => false
  | _, _ => false

/-- The IP configured on the far side of a link, seen from node `n`:
`none` when `n` is not an endpoint of the link. -/
def siblingIp (t : Topo) (l : LinkSpec) (n : String) : Option String :=
  if l.node1 == n then endpointIp2 t l
  else if l.node2 == n then endpointIp1 t l
  else none

/-- A host's `defaultRoute` next hop equals (as an address) the IP on
the far side of some link attached to the host. -/
def hostGatewayOk (t : Topo) (n : NodeSpec) : Bool :=
  match n.defaultRoute with
  | none => false
  | some dr =>
    match parseVia dr with
    | none => false
    | some gw =>
      t.links.any (fun l =>
        match siblingIp t l n.name with
        | some s =>
          match parseCidr s with
          | some c => c.addr == gw
          | none => false
        | none => false)

/-- The phase a run step belongs to: construction, start, rule
injection, interactive session, stop. -/
def Step.phase : Step → Nat
  | Step.buildTopology => 0
  | Step.netStart => 1
  | Step.nodeCmd _ _ => 2
  | Step.cli => 3
  | Step.netStop => 4

/-- Whether a step is a static-route injection. -/
def Step.isRouteAdd : Step → Bool
  | Step.nodeCmd _ (Cmd.routeAdd _ _ _) => true
  | _ => false

/-- Whether a step is a firewall-rule injection. -/
def Step.isFirewall : Step → Bool
  | Step.nodeCmd _ (Cmd.iptablesAppend _ _ _ _) => true
  | _ => false

/-- The node a step targets, when it is a command step. -/
def Step.target : Step → Option String
  | Step.nodeCmd n _ => some n
  | _ => none

/-- The steps of `run` strictly between `netStart` and `cli`. -/
def injectionWindow : List Step :=
  ((runSteps.dropWhile (fun s => !(s == Step.netStart))).drop 1).takeWhile
    (fun s => !(s == Step.cli))

/-- The node id a step targets is of router kind in the topology. -/
def targetsRouter (t : Topo) (s : Step) : Bool :=
  match s.target with
  | some n => t.nodes.any (fun m => m.name == n && m.kind == NodeKind.router)
  | none => false

/-- The `(dest, gateway, device)` triples of the routes `run` injects
into a given node, in order. -/
def routesOf (node : String) : List (Cidr × IPv4 × String) :=
  runSteps.filterMap (fun s =>
    match s with
    | Step.nodeCmd n (Cmd.routeAdd dest gw dev) =>
      if n == node then some (dest, gw, dev) else none
    | _ => none)

/-- The firewall rules `run` injects, with their target node, in order. -/
def firewallRules : List (String × String × String × IPv4 × String) :=
  runSteps.filterMap (fun s =>
    match s with
    | Step.nodeCmd n (Cmd.iptablesAppend chain proto dst target) =>
      some (n, chain, proto, dst, target)
    | _ => none)

/-- The hosts directly linked to a given node in a topology. -/
def hostsLinkedTo (t : Topo) (r : String) : List NodeSpec :=
  t.nodes.filter (fun n =>
    n.kind == NodeKind.host &&
      t.links.any (fun l =>
        (l.node1 == n.name && l.node2 == r) || (l.node1 == r && l.node2 == n.name)))

/-- The subnets of the hosts directly linked to a node: each host's `ip`
parsed and reduced to its network address. -/
def hostSubnetsOf (t : Topo) (r : String) : List Cidr :=
  (hostsLinkedTo t r).filterMap (fun n => (parseCidr n.ip).map Cidr.subnet)

/-- Running the enable-forwarding sysctl sets the forwarding flag and
logs the command. -/
theorem runShell_enable (s : NodeState) :
    s.runShell fwdEnableCmd =
      { s with forwarding := true, cmds := s.cmds ++ [fwdEnableCmd] } := by
  simp [NodeState.runShell]

/-- Running the disable-forwarding sysctl clears the forwarding flag and
logs the command. -/
theorem runShell_disable (s : NodeState) :
    s.runShell fwdDisableCmd =
      { s with forwarding := false, cmds := s.cmds ++ [fwdDisableCmd] } := by
  have h1 : ¬(fwdDisableCmd = fwdEnableCmd) := by decide
  simp [NodeState.runShell, h1]

/-! ### The claims -/

/-- Claim C1: `NetworkTopo.build` yields exactly 2 router nodes, 4 host
nodes and 5 links; host `h1` is assigned `192.168.2.100/24` with default
route via `192.168.2.1`; the inter-router link assigns `192.168.1.1/24`
and `192.168.1.2/24` to the two router endpoints respectively. -/
theorem concrete_topology_shape :
    (builtTopo.nodes.filter (fun n => n.kind == NodeKind.router)).length = 2 ∧
    (builtTopo.nodes.filter (fun n => n.kind == NodeKind.host)).length = 4 ∧
    builtTopo.links.length = 5 ∧
    builtTopo.nodes.find? (fun n => n.name == "h1") =
      some ⟨"h1", NodeKind.host, "192.168.2.100/24", some "via 192.168.2.1"⟩ ∧
    parseVia "via 192.168.2.1" = some ⟨192, 168, 2, 1⟩ ∧
    builtTopo.links.head? =
      some ⟨"r0", "r1", some "r0-eth1", some "192.168.1.1/24",
            some "r1-eth1", some "192.168.1.2/24"⟩ := by
  decide

/-- Claim C2: for router-kind nodes the start hook is `LinuxRouter.config`,
which behaves exactly like the plain host start hook except that it also
runs the enable-forwarding sysctl, leaving forwarding enabled; the stop
hook is `LinuxRouter.terminate`, likewise plain host teardown plus the
disable-forwarding sysctl, leaving forwarding disabled.  Host-kind nodes
keep plain `Node` semantics, so the forwarding side effect is the only
behavioral override. -/
theorem router_hooks_toggle_forwarding :
    ∀ s : NodeState,
      startHook NodeKind.router s =
        { Node.config s with
            forwarding := true, cmds := (Node.config s).cmds ++ [fwdEnableCmd] } ∧
      (startHook NodeKind.router s).forwarding = true ∧
      (startHook NodeKind.router s).configured = true ∧
      stopHook NodeKind.router s =
        { Node.terminate s with
            forwarding := false, cmds := (Node.terminate s).cmds ++ [fwdDisableCmd] } ∧
      (stopHook NodeKind.router s).forwarding = false ∧
      (stopHook NodeKind.router s).terminated = true ∧
      startHook NodeKind.host s = Node.config s ∧
      stopHook NodeKind.host s = Node.terminate s := by
  intro s
  refine ⟨?_, ?_, ?_, ?_, ?_, ?_, rfl, rfl⟩ <;>
    simp [startHook, stopHook, LinuxRouter.config, LinuxRouter.terminate,
      Node.config, Node.terminate, runShell_enable, runShell_disable]

/-- Claim C3: on each of the 5 links of the built topology, the two
endpoint IP assignments (per-endpoint configuration, or the endpoint's
host address when the link gives none) are /24 CIDRs in the same
subnet. -/
theorem links_same_slash24 :
    builtTopo.links.all (linkSameSlash24 builtTopo) = true := by
  decide

/-- Claim C4: the `run` trace executes topology construction, engine
start, rule injection, the interactive session and engine stop in that
order: the phase sequence is monotone and every phase occurs.  The trace
is a single sequential list, so no step begins before the previous one
completes. -/
theorem run_phases_ordered :
    List.Sorted (· ≤ ·) (runSteps.map Step.phase) ∧
    0 ∈ runSteps.map Step.phase ∧
    1 ∈ runSteps.map Step.phase ∧
    2 ∈ runSteps.map Step.phase ∧
    3 ∈ runSteps.map Step.phase ∧
    4 ∈ runSteps.map Step.phase := by
  decide

/-- Claim C5: between `net.start()` and `CLI(net)`, `run` injects
exactly four static-route commands and exactly one firewall rule, every
injected command targets a router-kind node, and `net.stop()` follows
immediately once the interactive session exits. -/
theorem run_injects_routes_and_firewall :
    injectionWindow.countP (fun s => Step.isRouteAdd s) = 4 ∧
    injectionWindow.countP (fun s => Step.isFirewall s) = 1 ∧
    injectionWindow.all (targetsRouter builtTopo) = true ∧
    runSteps.dropWhile (fun s => !(s == Step.cli)) = [Step.cli, Step.netStop] := by
  decide

/-- Claim C6: construction fails on malformed topology data: `addNode`
returns an error when the node id already exists, and `addLink` returns
an error when either endpoint is unknown; the `Except` error aborts the
rest of the build, so no construction error is recoverable. -/
theorem construction_rejects_malformed (t : Topo) (n : NodeSpec) (l : LinkSpec) :
    (t.hasNode n.name = true → ∃ e, t.addNode n = Except.error e) ∧
    ((t.hasNode l.node1 = false ∨ t.hasNode l.node2 = false) →
      ∃ e, t.addLink l = Except.error e) := by
  constructor
  · intro h
    exact ⟨"duplicate node id: " ++ n.name, by simp [Topo.addNode, h]⟩
  · intro h
    refine ⟨"unknown node in link: " ++ l.node1 ++ " - " ++ l.node2, ?_⟩
    rcases h with h | h <;> simp [Topo.addLink, h]

/-- Witness for C6: re-adding `r0` to the built topology fails, and
linking the unknown node `h9` fails. -/
theorem construction_rejects_malformed_witness :
    (∃ e, builtTopo.addNode ⟨"r0", NodeKind.router, "10.0.0.1/8", none⟩ =
      Except.error e) ∧
    (∃ e, builtTopo.addLink ⟨"h9", "r0", none, none, none, none⟩ =
      Except.error e) :=
  ⟨(construction_rejects_malformed builtTopo
      ⟨"r0", NodeKind.router, "10.0.0.1/8", none⟩
      ⟨"h9", "r0", none, none, none, none⟩).1 (by decide),
   (construction_rejects_malformed builtTopo
      ⟨"r0", NodeKind.router, "10.0.0.1/8", none⟩
      ⟨"h9", "r0", none, none, none, none⟩).2 (Or.inl (by decide))⟩

/-- Claim C7: no two NodeSpecs of the built topology share an
identifier: the six ids `r0`, `r1`, `h1`, `h2`, `h3`, `h4` are pairwise
distinct. -/
theorem node_ids_nodup :
    builtTopo.nodes.map (fun n => n.name) = ["r0", "r1", "h1", "h2", "h3", "h4"] ∧
    (builtTopo.nodes.map (fun n => n.name)).Nodup := by
  decide

/-- Claim C8: the build succeeds (so each of the 5 `addLink` calls named
only previously added nodes, since `addLink` errors on an unknown
endpoint), and every link of the built topology references node ids
present in the same graph. -/
theorem link_endpoints_present :
    NetworkTopo.build = Except.ok builtTopo ∧
    builtTopo.links.all
      (fun l => builtTopo.hasNode l.node1 && builtTopo.hasNode l.node2) = true :=
  ⟨rfl, by decide⟩

/-- Claim C9: every host's `defaultRoute` next hop equals, as an
address, the IP configured on the router side of the link attaching that
host, and the host-to-gateway mapping is `h1 -> 192.168.2.1`,
`h2 -> 192.168.3.1`, `h3 -> 192.168.5.1`, `h4 -> 192.168.4.1`. -/
theorem host_gateways_match_router_side :
    builtTopo.nodes.all
      (fun n => !(n.kind == NodeKind.host) || hostGatewayOk builtTopo n) = true ∧
    builtTopo.nodes.filterMap
        (fun n =>
          if n.kind == NodeKind.host then
            (n.defaultRoute.bind parseVia).map (fun gw => (n.name, gw))
          else none) =
      [("h1", ⟨192, 168, 2, 1⟩), ("h2", ⟨192, 168, 3, 1⟩),
       ("h3", ⟨192, 168, 5, 1⟩), ("h4", ⟨192, 168, 4, 1⟩)] := by
  decide

/-- Claim C10: the four injected routes cover exactly the remote host
subnets: the destinations of `r0`'s routes are a permutation of the
subnets of the hosts linked to `r1` and vice versa; every `r0` route
goes via `192.168.1.2` on `r0-eth1` and every `r1` route via
`192.168.1.1` on `r1-eth1`; and the only firewall rule is installed on
`r1`, matching ICMP traffic to `192.168.4.100` with target `DROP`. -/
theorem routes_cover_remote_subnets :
    List.Perm ((routesOf "r0").map (fun r => r.1)) (hostSubnetsOf builtTopo "r1") ∧
    List.Perm ((routesOf "r1").map (fun r => r.1)) (hostSubnetsOf builtTopo "r0") ∧
    (routesOf "r0").all
      (fun r => r.2.1 == ⟨192, 168, 1, 2⟩ && r.2.2 == "r0-eth1") = true ∧
    (routesOf "r1").all
      (fun r => r.2.1 == ⟨192, 168, 1, 1⟩ && r.2.2 == "r1-eth1") = true ∧
    firewallRules = [("r1", "FORWARD", "icmp", ⟨192, 168, 4, 100⟩, "DROP")] := by
  decide

end InfraReseaux
